import Mathlib

/-!
Verification of the movie-review backend's core: the generic data-access
layer (`app/crud.py`), the JWT token service (`app/oauth2.py`) and the
auth guard (`app/oauth2.py:get_current_user`), shallowly embedded in Lean.

The relational store is modelled as a per-table list of rows plus an
auto-increment counter; SQLAlchemy query chains become list operations;
JWT tokens become a record carrying the payload together with two flags
saying whether the blob parses and whether its signature verifies under
the configured key; Python exceptions become `Except`.
-/

/-- A JSON-ish claim value as Python sees it after `jwt.decode`: the
`user_id` claim can be null, an integer or a string. -/
inductive JVal where
  | jnull : JVal
  | jint : Int → JVal
  | jstr : String → JVal
deriving DecidableEq

/-- Python truthiness test used by `if not id:` in `verify_access_token`:
`None`, `0` and `""` are falsy. -/
def JVal.falsy : JVal → Bool
  | .jnull => true
  | .jint n => n == 0
  | .jstr s => s == ""

/-- Python `str()` applied to a decoded claim value, as in
`TokenData(id=str(id))`. -/
def JVal.pyStr : JVal → String
  | .jnull => "None"
  | .jint n => toString n
  | .jstr s => s

/-- Decoded JWT payload: the optional `user_id` claim and the optional
`exp` claim (seconds). `create_access_token` always sets `exp`. -/
structure Payload where
  user_id : Option JVal
  exp : Option Nat
deriving DecidableEq

/-- `python-jose` treats a token as expired when its `exp` claim is
strictly below the current time (zero leeway). A token without `exp`
is never expired. -/
def Payload.expiredAt (p : Payload) (now : Nat) : Bool :=
  match p.exp with
  | some e => e < now
  | none => false

/-- A bearer token as the verifier sees it: whether the blob parses as a
JWT, whether its signature verifies under `SECRET_KEY`/`ALGORITHM`, and
the payload it carries. -/
structure Token where
  wellFormed : Bool
  sigOk : Bool
  payload : Payload
deriving DecidableEq

/-- `schemas.TokenData`: the verified identity, a string id (the code
stores `str(id)`). -/
structure TokenData where
  id : String
deriving DecidableEq

/-- The slice of `fastapi.HTTPException` the auth flow uses. -/
structure HTTPException where
  status_code : Nat
  detail : String
deriving DecidableEq

/-- The single `credentials_exception` built in `get_current_user`
(oauth2.py lines 77-81). -/
def credentials_exception : HTTPException :=
  ⟨401, "Could not validate credentials"⟩

/-- The distinct failure modes `jose.jwt.decode` can raise; all are
subclasses of `JWTError` and are caught together in
`verify_access_token`. -/
inductive JWTErr where
  | malformed : JWTErr
  | badSignature : JWTErr
  | expiredSignature : JWTErr
deriving DecidableEq

/-- `jose.jwt.decode(token, SECRET_KEY, algorithms=[ALGORITHM])`:
fails on a malformed blob, a signature that does not verify, or an
expired `exp` claim; otherwise returns the payload. -/
def jwtDecode (tok : Token) (now : Nat) : Except JWTErr Payload :=
  if tok.wellFormed = false then .error .malformed
  else if tok.sigOk = false then .error .badSignature
  else if tok.payload.expiredAt now then .error .expiredSignature
  else .ok tok.payload

/-- `oauth2.create_access_token` as called by the login route with
`data={"user_id": user.id}`: copies the data, adds
`exp = now + ACCESS_TOKEN_EXPIRE_MINUTES` and signs with the configured
key, so the resulting token is well formed and its signature verifies. -/
def create_access_token (user_id : JVal) (now ttlMinutes : Nat) : Token :=
  ⟨true, true, ⟨some user_id, some (now + ttlMinutes * 60)⟩⟩

/-- `oauth2.verify_access_token(token, credentials_exception)`: decodes
the token; any `JWTError` is caught and replaced by the caller-supplied
`credentials_exception`; a missing or falsy `user_id` claim raises the
same exception; otherwise returns `TokenData(id=str(id))`. -/
def verify_access_token (ce : HTTPException) (tok : Token) (now : Nat) :
    Except HTTPException TokenData :=
  match jwtDecode tok now with
  | .error _ => .error ce
  | .ok payload =>
    match payload.user_id with
    | none => .error ce
    | some v => if v.falsy then .error ce else .ok ⟨v.pyStr⟩

/-- A stored user row (`models.User`). -/
structure UserRow where
  id : Nat
  email : String
  password : String
  created_at : Nat
deriving DecidableEq

/-- A generic owned row: every non-user table has a server-assigned id,
a server-assigned timestamp, an owner `user_id` and its payload fields. -/
structure Row (δ : Type) where
  id : Nat
  created_at : Nat
  user_id : Nat
  fields : δ
deriving DecidableEq

/-- One table of the relational store: its rows in storage order plus
the auto-increment counter for the next primary key. -/
structure Store (α : Type) where
  rows : List α
  nextId : Nat
deriving DecidableEq

/-- Payload fields of `models.Movie`. -/
structure MovieFields where
  title : String
  genre : String
  director : String
deriving DecidableEq

/-- Payload fields of `models.Rating` (`schemas.RatingCreate` carries an
integer rating). -/
structure RatingFields where
  movie_id : Nat
  rating : Int
deriving DecidableEq

/-- Payload fields of `models.Comment`. -/
structure CommentFields where
  movie_id : Nat
  content : String
deriving DecidableEq

/-- Payload fields of `models.Reply`. -/
structure ReplyFields where
  comment_id : Nat
  reply : String
deriving DecidableEq

/-- Does `needle` occur at the head of `hay` (literally, character by
character)? -/
def leadsIn : List Char → List Char → Bool
  | [], _ => true
  | _ :: _, [] => false
  | a :: as, b :: bs => a == b && leadsIn as bs

/-- Literal substring containment: the spec's phrase "rows whose genre
field contains the given substring", stated as written. This is what
the SQL filter amounts to only when the search string is free of
wildcard characters; see `likeMatch` for the filter's actual
semantics. -/
def occursIn (needle : List Char) : List Char → Bool
  | [] => leadsIn needle []
  | h :: t => leadsIn needle (h :: t) || occursIn needle t

/-- One `%` wildcard step: accept the string if the continuation `f`
accepts any of its suffixes (itself included). -/
def likeTail (f : List Char → Bool) : List Char → Bool
  | [] => f []
  | d :: t => f (d :: t) || likeTail f t

/-- SQL `LIKE` pattern matching, the semantics of the filter
SQLAlchemy's `column.contains(search)` emits: `genre LIKE
'%' || search || '%'` with no ESCAPE clause and `autoescape` off, so a
`%` in the pattern matches any sequence of characters, `_` matches
exactly one, and every other character matches itself, case
sensitively. -/
def likeMatch : List Char → List Char → Bool
  | [], s => s.isEmpty
  | p0 :: ps, s =>
    if p0 = '%' then likeTail (fun t => likeMatch ps t) s
    else
      match s with
      | [] => false
      | d :: t => if p0 = '_' then likeMatch ps t else p0 == d && likeMatch ps t

/-- `CRUDService.create(data_obj, model, current_user)`: inserts a row
stamped with `user_id = current_user.id`, the supplied fields, a
server-assigned id and timestamp; returns the materialized row and the
updated table. -/
def CRUDService.create (s : Store (Row δ)) (data : δ) (uid : Nat) (now : Nat) :
    Row δ × Store (Row δ) :=
  let r : Row δ := ⟨s.nextId, now, uid, data⟩
  (r, ⟨s.rows ++ [r], s.nextId + 1⟩)

/-- `CRUDService.get(id, model)`: first row with the given id, or
`None`. -/
def CRUDService.get (id : Nat) (s : Store (Row δ)) : Option (Row δ) :=
  s.rows.find? (fun r => r.id == id)

/-- `CRUDService.get_movie(model, limit, skip, search)`: rows whose
genre matches `model.genre.contains(search)` — the unescaped pattern
`LIKE '%' || search || '%'` — offset by `skip` and capped at `limit`
(SQL applies `OFFSET` before `LIMIT`). -/
def CRUDService.get_movie (s : Store (Row MovieFields)) (lim skip : Nat)
    (search : String) : List (Row MovieFields) :=
  (((s.rows.filter
      (fun r => likeMatch ('%' :: (search.toList ++ ['%'])) r.fields.genre.toList)).drop
    skip).take lim)

/-- `CRUDService.update(id, data_obj, model)`: partial update of the
row with the given id, replacing the schema fields and leaving id,
owner and timestamp alone; zero rows affected when the id is absent. -/
def CRUDService.update (id : Nat) (data : δ) (s : Store (Row δ)) :
    Store (Row δ) :=
  ⟨s.rows.map (fun r => if r.id == id then ⟨r.id, r.created_at, r.user_id, data⟩ else r),
   s.nextId⟩

/-- `CRUDService.delete(id, model)`: removes the row with the given id;
zero rows affected when the id is absent. The auto-increment counter is
not rewound. -/
def CRUDService.delete (id : Nat) (s : Store (Row δ)) : Store (Row δ) :=
  ⟨s.rows.filter (fun r => !(r.id == id)), s.nextId⟩

/-- `CRUDService.get_existing_rating(data_obj, model, current_user)`:
first rating matching both the movie id from the request body and the
acting user's id, or `None`. -/
def CRUDService.get_existing_rating (data : RatingFields)
    (s : Store (Row RatingFields)) (uid : Nat) : Option (Row RatingFields) :=
  s.rows.find? (fun r => r.fields.movie_id == data.movie_id && r.user_id == uid)

/-- `CRUDService.rate_movie(data_obj, model, current_user)`: same insert
pattern as `create`, on the ratings table. -/
def CRUDService.rate_movie (s : Store (Row RatingFields)) (data : RatingFields)
    (uid : Nat) (now : Nat) : Row RatingFields × Store (Row RatingFields) :=
  let r : Row RatingFields := ⟨s.nextId, now, uid, data⟩
  (r, ⟨s.rows ++ [r], s.nextId + 1⟩)

/-- `CRUDService.comment_movie(data_obj, model, current_user)`: same
insert pattern as `create`, on the comments table. -/
def CRUDService.comment_movie (s : Store (Row CommentFields))
    (data : CommentFields) (uid : Nat) (now : Nat) :
    Row CommentFields × Store (Row CommentFields) :=
  let r : Row CommentFields := ⟨s.nextId, now, uid, data⟩
  (r, ⟨s.rows ++ [r], s.nextId + 1⟩)

/-- `CRUDService.reply_comment(data_obj, model, current_user)`: same
insert pattern as `create`, on the replies table. -/
def CRUDService.reply_comment (s : Store (Row ReplyFields))
    (data : ReplyFields) (uid : Nat) (now : Nat) :
    Row ReplyFields × Store (Row ReplyFields) :=
  let r : Row ReplyFields := ⟨s.nextId, now, uid, data⟩
  (r, ⟨s.rows ++ [r], s.nextId + 1⟩)

/-- `oauth2.get_current_user`: verifies the token with the fixed
`credentials_exception`; on success queries the users table for the row
whose id matches the token's string id and returns whatever `first()`
yields — `None` included, with no further check. The SQL comparison of
the integer column against the string parameter is modelled by
stringifying the column. -/
def get_current_user (tok : Token) (db : Store UserRow) (now : Nat) :
    Except HTTPException (Option UserRow) :=
  match verify_access_token credentials_exception tok now with
  | .error e => .error e
  | .ok td => .ok (db.rows.find? (fun u => toString u.id == td.id))

/-- Helper: every failure of `verify_access_token` carries exactly the
caller-supplied `credentials_exception`, whatever check tripped. -/
theorem verify_access_token_error_eq (ce : HTTPException) (tok : Token)
    (now : Nat) (e : HTTPException)
    (h : verify_access_token ce tok now = .error e) : e = ce := by
  unfold verify_access_token at h
  split at h
  · exact (Except.error.inj h).symm
  · split at h
    · exact (Except.error.inj h).symm
    · split at h
      · exact (Except.error.inj h).symm
      · cases h

/-- C1 (amended): for every nonzero integer userId, verifying a token
immediately after issuing it for that userId — at any time not past the
embedded expiry — succeeds and returns the embedded userId
(stringified, as `TokenData(id=str(id))` stores it). -/
theorem token_roundtrip (ce : HTTPException) (uid : Int) (now ttl t : Nat)
    (h0 : uid ≠ 0) (ht : t ≤ now + ttl * 60) :
    verify_access_token ce (create_access_token (JVal.jint uid) now ttl) t
      = .ok ⟨toString uid⟩ := by
  have hexp : (now + ttl * 60 < t) = False := eq_false (Nat.not_lt.mpr ht)
  have hz : (uid == 0) = false := beq_eq_false_iff_ne.mpr h0
  simp [verify_access_token, jwtDecode, create_access_token, Payload.expiredAt,
    JVal.falsy, JVal.pyStr, hexp, hz]

/-- Witness for C1: token issued for user 7 at time 5 with a 30-minute
TTL verifies at time 100. -/
theorem token_roundtrip_witness :
    verify_access_token credentials_exception
        (create_access_token (JVal.jint 7) 5 30) 100
      = .ok ⟨toString (7 : Int)⟩ :=
  token_roundtrip credentials_exception 7 5 30 100 (by decide) (by decide)

/-- Counterexample to C1 as stated: a freshly issued, unexpired token
for userId 0 is rejected with the generic credentials exception rather
than verifying to userId 0 (`if not id:` treats 0 as missing). -/
theorem token_roundtrip_cex :
    verify_access_token credentials_exception
        (create_access_token (JVal.jint 0) 0 30) 0
      = .error credentials_exception := rfl

/-- C4 (amended): verification fails exactly when the blob is
malformed, the signature does not verify, the token is expired, or the
`user_id` claim is absent or carries a falsy value (null, 0 or the
empty string); a well-signed, unexpired token with a truthy identity
claim verifies. -/
theorem verify_error_iff (ce : HTTPException) (tok : Token) (now : Nat) :
    (verify_access_token ce tok now).isOk = false ↔
      (tok.wellFormed = false ∨ tok.sigOk = false ∨
       tok.payload.expiredAt now = true ∨ tok.payload.user_id = none ∨
       ∃ v, tok.payload.user_id = some v ∧ v.falsy = true) := by
  obtain ⟨wf, sg, pl⟩ := tok
  unfold verify_access_token jwtDecode
  cases wf
  · simp [Except.isOk, Except.toBool]
  · cases sg
    · simp [Except.isOk, Except.toBool]
    · cases he : pl.expiredAt now
      · rcases hu : pl.user_id with _ | v
        · simp [he, hu, Except.isOk, Except.toBool]
        · cases hf : v.falsy
          · simp [he, hu, hf, Except.isOk, Except.toBool]
          · simp [he, hu, hf, Except.isOk, Except.toBool]
      · simp [he, Except.isOk, Except.toBool]

/-- Counterexample to C4 as stated: a well-formed, well-signed,
unexpired token whose `user_id` claim is present with value 0 is
rejected, although none of the claim's four failure conditions holds. -/
theorem verify_error_iff_cex :
    verify_access_token credentials_exception
        ⟨true, true, ⟨some (JVal.jint 0), some 100⟩⟩ 0
      = .error credentials_exception
    ∧ (⟨true, true, ⟨some (JVal.jint 0), some 100⟩⟩ : Token).wellFormed = true
    ∧ (⟨true, true, ⟨some (JVal.jint 0), some 100⟩⟩ : Token).sigOk = true
    ∧ (⟨true, true, (⟨some (JVal.jint 0), some 100⟩ : Payload)⟩ : Token).payload.expiredAt 0 = false
    ∧ (⟨true, true, (⟨some (JVal.jint 0), some 100⟩ : Payload)⟩ : Token).payload.user_id
        = some (JVal.jint 0) :=
  ⟨rfl, rfl, rfl, rfl, rfl⟩

/-- C5: any two verification failures, whatever their causes, deliver
the same single caller-supplied invalid-credentials exception; the
caller cannot tell which check failed. -/
theorem verify_uniform_failure (ce : HTTPException) (t1 t2 : Token)
    (n1 n2 : Nat) (e1 e2 : HTTPException)
    (h1 : verify_access_token ce t1 n1 = .error e1)
    (h2 : verify_access_token ce t2 n2 = .error e2) : e1 = e2 := by
  rw [verify_access_token_error_eq ce t1 n1 e1 h1,
    verify_access_token_error_eq ce t2 n2 e2 h2]

/-- Witness for C5: a bad-signature failure and an expiry failure yield
the same exception. -/
theorem verify_uniform_failure_witness :
    verify_access_token credentials_exception
        ⟨true, false, ⟨some (JVal.jint 5), some 100⟩⟩ 0
      = .error credentials_exception
    ∧ verify_access_token credentials_exception
        ⟨true, true, ⟨some (JVal.jint 5), some 3⟩⟩ 10
      = .error credentials_exception
    ∧ credentials_exception = credentials_exception :=
  ⟨rfl, rfl,
   verify_uniform_failure credentials_exception
     ⟨true, false, ⟨some (JVal.jint 5), some 100⟩⟩
     ⟨true, true, ⟨some (JVal.jint 5), some 3⟩⟩ 0 10
     credentials_exception credentials_exception rfl rfl⟩

/-- C10: a well-signed, well-formed, unexpired token whose `user_id`
claim holds a falsy value (null, 0 or the empty string) is rejected
with the generic credentials failure; in particular a validly issued
token for user id 0 is never accepted, at any verification time. -/
theorem verify_rejects_falsy (ce : HTTPException) :
    (∀ (tok : Token) (now : Nat) (v : JVal),
       tok.wellFormed = true → tok.sigOk = true →
       tok.payload.expiredAt now = false →
       tok.payload.user_id = some v → v.falsy = true →
       verify_access_token ce tok now = .error ce)
    ∧ (∀ now ttl t : Nat,
       verify_access_token ce (create_access_token (JVal.jint 0) now ttl) t
         = .error ce) := by
  constructor
  · intro tok now v hwf hsig hexp huid hf
    obtain ⟨wf, sg, pl⟩ := tok
    simp only at hwf hsig hexp huid
    subst hwf hsig
    simp [verify_access_token, jwtDecode, hexp, huid, hf]
  · intro now ttl t
    cases he : Payload.expiredAt ⟨some (JVal.jint 0), some (now + ttl * 60)⟩ t
    · simp [verify_access_token, jwtDecode, create_access_token, he, JVal.falsy]
    · simp [verify_access_token, jwtDecode, create_access_token, he]

/-- Witness for C10: an unexpired, well-signed token with `user_id` set
to the empty string is rejected, and so is a token issued for user id
0 and checked immediately. -/
theorem verify_rejects_falsy_witness :
    verify_access_token credentials_exception
        ⟨true, true, ⟨some (JVal.jstr ""), some 50⟩⟩ 0
      = .error credentials_exception
    ∧ verify_access_token credentials_exception
        (create_access_token (JVal.jint 0) 0 30) 0
      = .error credentials_exception :=
  ⟨(verify_rejects_falsy credentials_exception).1
     ⟨true, true, ⟨some (JVal.jstr ""), some 50⟩⟩ 0 (JVal.jstr "")
     rfl rfl rfl rfl rfl,
   (verify_rejects_falsy credentials_exception).2 0 30 0⟩

/-- C2 (failing input): with a validly issued token for user id 7 and a
user store containing no row with id 7 (the user was deleted),
`get_current_user` returns `ok None` — it raises nothing, contrary to
its own docstring and the spec, which require an Unauthorized error
when the embedded id no longer resolves to a user. -/
theorem get_current_user_deleted_user_returns_none :
    get_current_user (create_access_token (JVal.jint 7) 0 30) ⟨[], 5⟩ 10
      = .ok none := rfl

/-- Error outcomes of the POST /ratings handler, per the spec's error
taxonomy (§7). -/
inductive ApiError where
  | NotFound : Nat → ApiError
  | DuplicateRating : ApiError
deriving DecidableEq

/-- Modelled from the spec: the POST /ratings ResourceHandler. The
`app/routers/ratings.py` module that `app/main.py` imports is not among
the sources; per spec §6 and the repository's own tests it returns 404
when the movie is absent, rejects with `DuplicateRating` (400, "User
has already rated this movie") when `CRUDService.get_existing_rating`
finds a prior rating by the acting user on that movie, and otherwise
delegates the insert to `CRUDService.rate_movie`. -/
def rateMovieEndpoint (movies : Store (Row MovieFields))
    (ratings : Store (Row RatingFields)) (data : RatingFields)
    (uid now : Nat) :
    Except ApiError (Row RatingFields × Store (Row RatingFields)) :=
  match CRUDService.get data.movie_id movies with
  | none => .error (.NotFound data.movie_id)
  | some _ =>
    match CRUDService.get_existing_rating data ratings uid with
    | some _ => .error .DuplicateRating
    | none => .ok (CRUDService.rate_movie ratings data uid now)

/-- Number of stored ratings for a given (movie, user) pair. -/
def pairCount (s : Store (Row RatingFields)) (m u : Nat) : Nat :=
  s.rows.countP (fun r => r.fields.movie_id == m && r.user_id == u)

/-- The application-level invariant the duplicate check maintains: at
most one rating per (movie, user) pair. -/
def atMostOnePerPair (s : Store (Row RatingFields)) : Prop :=
  ∀ m u, pairCount s m u ≤ 1

/-- C3: a second rating attempt for a pair (M, U) that already has a
rating is rejected with `DuplicateRating` (provided the movie exists,
as it must for the first rating to have been accepted) and, under
sequential execution, any successful insert preserves the at-most-one-
rating-per-pair invariant. -/
theorem duplicate_rating_rejected (movies : Store (Row MovieFields))
    (ratings : Store (Row RatingFields)) (data : RatingFields)
    (uid now : Nat) :
    ((CRUDService.get data.movie_id movies).isSome = true →
     (∃ r ∈ ratings.rows, r.fields.movie_id = data.movie_id ∧ r.user_id = uid) →
     rateMovieEndpoint movies ratings data uid now = .error .DuplicateRating)
    ∧ (atMostOnePerPair ratings →
       ∀ (r : Row RatingFields) (s' : Store (Row RatingFields)),
         rateMovieEndpoint movies ratings data uid now = .ok (r, s') →
         atMostOnePerPair s') := by
  constructor
  · intro hm hex
    obtain ⟨m, hm'⟩ := Option.isSome_iff_exists.mp hm
    have hfind : (CRUDService.get_existing_rating data ratings uid).isSome := by
      unfold CRUDService.get_existing_rating
      rw [List.find?_isSome]
      obtain ⟨r, hr, h1, h2⟩ := hex
      exact ⟨r, hr, by simp [h1, h2]⟩
    obtain ⟨r0, hr0⟩ := Option.isSome_iff_exists.mp hfind
    unfold rateMovieEndpoint
    rw [hm', hr0]
  · intro hinv r s' h
    unfold rateMovieEndpoint at h
    rcases hm : CRUDService.get data.movie_id movies with _ | m
    · rw [hm] at h
      cases h
    · rw [hm] at h
      rcases he : CRUDService.get_existing_rating data ratings uid with _ | r0
      · rw [he] at h
        have hs' : s' = (CRUDService.rate_movie ratings data uid now).2 := by
          have := Except.ok.inj h
          exact (congrArg Prod.snd this).symm
        have hnone : ∀ x ∈ ratings.rows,
            ¬(x.fields.movie_id == data.movie_id && x.user_id == uid) = true := by
          intro x hx
          have := List.find?_eq_none.mp he x hx
          simpa using this
        intro m' u'
        rw [hs']
        unfold CRUDService.rate_movie pairCount
        simp only [List.countP_append]
        by_cases hp : (data.movie_id == m' && (uid == u' : Bool)) = true
        · obtain ⟨hm1, hu1⟩ := Bool.and_eq_true_iff.mp hp
          have hm1 : data.movie_id = m' := by simpa using hm1
          have hu1 : uid = u' := by simpa using hu1
          subst hm1 hu1
          have hzero : ratings.rows.countP
              (fun x => x.fields.movie_id == data.movie_id && x.user_id == uid) = 0 :=
            List.countP_eq_zero.mpr hnone
          have : pairCount ratings data.movie_id uid = 0 := hzero
          unfold pairCount at this
          rw [this]
          simp [List.countP_singleton]
        · have hle : List.countP
              (fun x => x.fields.movie_id == m' && x.user_id == u')
              [(⟨ratings.nextId, now, uid, data⟩ : Row RatingFields)] = 0 := by
            simp only [List.countP_singleton]
            simp only [Row.fields, Row.user_id] at hp ⊢
            simp [hp]
          rw [hle]
          simpa using hinv m' u'
      · rw [he] at h
        cases h

/-- Witness for C3: one movie, one existing rating by user 2 on movie
1; a second attempt by user 2 on movie 1 is rejected. -/
theorem duplicate_rating_rejected_witness :
    rateMovieEndpoint ⟨[⟨1, 0, 1, ⟨"T", "G", "D"⟩⟩], 2⟩
        ⟨[⟨1, 0, 2, ⟨1, 4⟩⟩], 2⟩ ⟨1, 5⟩ 2 7
      = .error .DuplicateRating :=
  (duplicate_rating_rejected ⟨[⟨1, 0, 1, ⟨"T", "G", "D"⟩⟩], 2⟩
      ⟨[⟨1, 0, 2, ⟨1, 4⟩⟩], 2⟩ ⟨1, 5⟩ 2 7).1 (by decide)
    ⟨⟨1, 0, 2, ⟨1, 4⟩⟩, by decide, rfl, rfl⟩

/-- C6: every entity-creating operation that takes an acting user
stamps the acting user's id into the returned row's `user_id` and
copies the supplied field values unchanged: `create`, `rate_movie`,
`comment_movie` and `reply_comment`. -/
theorem ownership_scoped_creation (δ : Type) (s : Store (Row δ)) (data : δ)
    (sr : Store (Row RatingFields)) (rdata : RatingFields)
    (sc : Store (Row CommentFields)) (cdata : CommentFields)
    (sp : Store (Row ReplyFields)) (pdata : ReplyFields) (uid now : Nat) :
    ((CRUDService.create s data uid now).1.user_id = uid ∧
     (CRUDService.create s data uid now).1.fields = data) ∧
    ((CRUDService.rate_movie sr rdata uid now).1.user_id = uid ∧
     (CRUDService.rate_movie sr rdata uid now).1.fields = rdata) ∧
    ((CRUDService.comment_movie sc cdata uid now).1.user_id = uid ∧
     (CRUDService.comment_movie sc cdata uid now).1.fields = cdata) ∧
    ((CRUDService.reply_comment sp pdata uid now).1.user_id = uid ∧
     (CRUDService.reply_comment sp pdata uid now).1.fields = pdata) :=
  ⟨⟨rfl, rfl⟩, ⟨rfl, rfl⟩, ⟨rfl, rfl⟩, ⟨rfl, rfl⟩⟩

/-- Helper: `find?` on a list extended with a fresh row whose id beats
every stored id returns that row. -/
theorem find_append_fresh {δ : Type} (l : List (Row δ)) (x : Row δ)
    (h : ∀ r ∈ l, r.id < x.id) :
    (l ++ [x]).find? (fun r => r.id == x.id) = some x := by
  induction l with
  | nil => simp
  | cons a t ih =>
    have ha : (a.id == x.id) = false :=
      beq_eq_false_iff_ne.mpr (Nat.ne_of_lt (h a (List.mem_cons_self a t)))
    simp only [List.cons_append, List.find?_cons, ha]
    exact ih (fun r hr => h r (List.mem_cons_of_mem a hr))

/-- C7: reading back the row returned by `create` via `get` on the
post-insert table yields exactly that row, provided every pre-existing
id is below the auto-increment counter (which the store maintains). -/
theorem create_get_roundtrip {δ : Type} (s : Store (Row δ)) (data : δ)
    (uid now : Nat) (hfresh : ∀ r ∈ s.rows, r.id < s.nextId) :
    CRUDService.get (CRUDService.create s data uid now).1.id
        (CRUDService.create s data uid now).2
      = some (CRUDService.create s data uid now).1 := by
  unfold CRUDService.get CRUDService.create
  exact find_append_fresh s.rows ⟨s.nextId, now, uid, data⟩ hfresh

/-- Witness for C7: a store with one rating row and counter 1; the
created row reads back. -/
theorem create_get_roundtrip_witness :
    CRUDService.get
        (CRUDService.create
          (⟨[⟨0, 0, 1, (⟨1, 4⟩ : RatingFields)⟩], 1⟩ : Store (Row RatingFields))
          ⟨2, 5⟩ 3 9).1.id
        (CRUDService.create
          (⟨[⟨0, 0, 1, (⟨1, 4⟩ : RatingFields)⟩], 1⟩ : Store (Row RatingFields))
          ⟨2, 5⟩ 3 9).2
      = some (CRUDService.create
          (⟨[⟨0, 0, 1, (⟨1, 4⟩ : RatingFields)⟩], 1⟩ : Store (Row RatingFields))
          ⟨2, 5⟩ 3 9).1 :=
  create_get_roundtrip _ _ _ _ (by decide)

/-- Helper: the per-row update map is the identity when no row carries
the target id. -/
theorem map_update_id_of_absent {δ : Type} (l : List (Row δ)) (id : Nat)
    (data : δ) (h : ∀ r ∈ l, r.id ≠ id) :
    l.map (fun r => if r.id == id
        then (⟨r.id, r.created_at, r.user_id, data⟩ : Row δ) else r) = l := by
  induction l with
  | nil => rfl
  | cons a t ih =>
    have ha : (a.id == id) = false :=
      beq_eq_false_iff_ne.mpr (h a (List.mem_cons_self a t))
    simp only [List.map_cons, ha, Bool.false_eq_true, if_false, List.cons.injEq,
      true_and]
    exact ih (fun r hr => h r (List.mem_cons_of_mem a hr))

/-- C8: when no row carries the target id, `update` and `delete` both
return with zero rows affected and the table — every row and the
counter — is unchanged. -/
theorem missing_id_noop {δ : Type} (s : Store (Row δ)) (id : Nat) (data : δ)
    (h : ∀ r ∈ s.rows, r.id ≠ id) :
    CRUDService.update id data s = s ∧ CRUDService.delete id s = s := by
  obtain ⟨rows, n⟩ := s
  constructor
  · unfold CRUDService.update
    simp only [Store.mk.injEq, and_true]
    exact map_update_id_of_absent rows id data h
  · unfold CRUDService.delete
    simp only [Store.mk.injEq, and_true]
    refine List.filter_eq_self.mpr (fun r hr => ?_)
    simp [beq_eq_false_iff_ne.mpr (h r hr)]

/-- Witness for C8: updating and deleting id 9 in a table whose only
row has id 1 leaves the table unchanged. -/
theorem missing_id_noop_witness :
    CRUDService.update 9 (⟨2, 3⟩ : RatingFields)
        (⟨[⟨1, 0, 1, ⟨1, 4⟩⟩], 2⟩ : Store (Row RatingFields))
      = ⟨[⟨1, 0, 1, ⟨1, 4⟩⟩], 2⟩
    ∧ CRUDService.delete 9
        (⟨[⟨1, 0, 1, (⟨1, 4⟩ : RatingFields)⟩], 2⟩ : Store (Row RatingFields))
      = ⟨[⟨1, 0, 1, ⟨1, 4⟩⟩], 2⟩ :=
  missing_id_noop (⟨[⟨1, 0, 1, ⟨1, 4⟩⟩], 2⟩ : Store (Row RatingFields)) 9
    (⟨2, 3⟩ : RatingFields) (by decide)

/-- Helper: a wildcard-free literal pattern followed by a single `%`
accepts a string only if the literal leads the string. -/
theorem likeMatch_lit_pct {needle : List Char}
    (hw : ∀ c ∈ needle, c ≠ '%' ∧ c ≠ '_') :
    ∀ t : List Char, likeMatch (needle ++ ['%']) t = true →
      leadsIn needle t = true := by
  induction needle with
  | nil => intro t _; rfl
  | cons c ns ih =>
    intro t h
    obtain ⟨hc1, hc2⟩ := hw c (List.mem_cons_self c ns)
    rw [List.cons_append] at h
    cases t with
    | nil => simp [likeMatch, hc1] at h
    | cons d t' =>
      simp only [likeMatch, hc1, if_false, hc2, ite_false, Bool.and_eq_true,
        beq_iff_eq] at h
      simp only [leadsIn, Bool.and_eq_true, beq_iff_eq]
      exact ⟨h.1, ih (fun x hx => hw x (List.mem_cons_of_mem c hx)) t' h.2⟩

/-- Helper: if every string the continuation accepts is led by
`needle`, then a string with an accepted suffix contains `needle`. -/
theorem likeTail_occursIn {f : List Char → Bool} {needle : List Char}
    (hf : ∀ t, f t = true → leadsIn needle t = true) :
    ∀ s : List Char, likeTail f s = true → occursIn needle s = true := by
  intro s
  induction s with
  | nil =>
    intro h
    have h' : f [] = true := h
    simpa [occursIn] using hf [] h'
  | cons d t ih =>
    intro h
    rw [likeTail] at h
    simp only [Bool.or_eq_true] at h
    rcases h with h1 | h2
    · simp [occursIn, hf _ h1]
    · simp [occursIn, ih h2]

/-- C9 (amended): the movie list operation returns only stored rows
whose genre matches the unescaped SQL pattern `'%' || search || '%'`
(wildcards `%` and `_` in the search are interpreted by LIKE, not
matched literally); when the search string is free of wildcard
characters, every returned row's genre contains the search string as
a literal substring; at most `lim` rows are returned, drawn in order
from the filtered rows after the first `skip` are passed over. -/
theorem genre_search_filter (s : Store (Row MovieFields)) (lim skip : Nat)
    (search : String) :
    (∀ r ∈ CRUDService.get_movie s lim skip search,
       likeMatch ('%' :: (search.toList ++ ['%'])) r.fields.genre.toList = true ∧
       r ∈ s.rows) ∧
    ((∀ c ∈ search.toList, c ≠ '%' ∧ c ≠ '_') →
     ∀ r ∈ CRUDService.get_movie s lim skip search,
       occursIn search.toList r.fields.genre.toList = true) ∧
    (CRUDService.get_movie s lim skip search).length ≤ lim ∧
    List.Sublist (CRUDService.get_movie s lim skip search)
      ((s.rows.filter
          (fun r => likeMatch ('%' :: (search.toList ++ ['%']))
            r.fields.genre.toList)).drop skip) := by
  have hmem : ∀ r ∈ CRUDService.get_movie s lim skip search,
      likeMatch ('%' :: (search.toList ++ ['%'])) r.fields.genre.toList = true ∧
      r ∈ s.rows := by
    intro r hr
    have h1 : r ∈ s.rows.filter
        (fun r => likeMatch ('%' :: (search.toList ++ ['%']))
          r.fields.genre.toList) :=
      List.drop_subset _ _ (List.take_subset _ _ hr)
    rcases List.mem_filter.mp h1 with ⟨hm, hp⟩
    exact ⟨hp, hm⟩
  refine ⟨hmem, fun hw r hr => ?_, List.length_take_le _ _, List.take_sublist _ _⟩
  have hlike := (hmem r hr).1
  simp only [likeMatch, if_pos rfl] at hlike
  exact likeTail_occursIn (likeMatch_lit_pct hw) _ hlike

/-- Witness for C9: searching "ct" (wildcard-free) over a single movie
with genre "action" only returns rows whose genre literally contains
"ct". -/
theorem genre_search_filter_witness :
    occursIn ("ct" : String).toList
        ((⟨1, 0, 1, ⟨"T", "action", "D"⟩⟩ : Row MovieFields).fields.genre).toList
      = true :=
  (genre_search_filter ⟨[⟨1, 0, 1, ⟨"T", "action", "D"⟩⟩], 2⟩ 5 0 "ct").2.1
    (by decide) ⟨1, 0, 1, ⟨"T", "action", "D"⟩⟩ (by decide)

/-- Counterexample to C9 as stated: searching for the one-character
string "%" returns the stored movie with genre "action", whose genre
does not contain "%" as a substring — the unescaped `%` acts as a
LIKE wildcard and matches every row. -/
theorem genre_search_filter_cex :
    ((⟨1, 0, 1, ⟨"T", "action", "D"⟩⟩ : Row MovieFields)
      ∈ CRUDService.get_movie
          (⟨[⟨1, 0, 1, ⟨"T", "action", "D"⟩⟩], 2⟩ : Store (Row MovieFields))
          5 0 "%")
    ∧ occursIn ("%" : String).toList
        ((⟨1, 0, 1, ⟨"T", "action", "D"⟩⟩ : Row MovieFields).fields.genre).toList
      = false := by
  decide
